import Mathlib

/-!
Shallow embedding of `cupy/_creation/basic.py` (array construction and
layout negotiation) together with the collaborator primitives it calls,
and proofs of the specified properties.

Source functions embedded from `src/cupy/_creation/basic.py`:
`_new_like_order_and_strides`, `empty_like`, `ones_like`, `zeros_like`,
`full`, `full_like`, `eye`, `astype`.

Collaborators (`cupy._core.internal._update_order_char`,
`cupy._core.internal._get_strides_for_order_K`, `ndarray.astype`,
`ndarray.diagonal(...).fill(...)`, numpy scalar dtype inference) are not
part of the excerpt; each is modelled from the spec and marked as such in
its doc comment.
-/

namespace CupyBasic

/-- Element data types (a closed enumeration, per the spec's design note). -/
inductive Dtype where
  | bool_ : Dtype
  | int32 : Dtype
  | int64 : Dtype
  | float32 : Dtype
  | float64 : Dtype
deriving DecidableEq, Repr

/-- Byte size of one element of the dtype (`numpy.dtype(d).itemsize`). -/
def Dtype.itemsize : Dtype → Nat
  | .bool_ => 1
  | .int32 => 4
  | .int64 => 8
  | .float32 => 4
  | .float64 => 8

/-- A host-side Python scalar, as passed for `fill_value`.  Float payloads
are modelled by exact integers; only the tag matters for dtype inference. -/
inductive PyScalar where
  | int : Int → PyScalar
  | float : Int → PyScalar
  | bool : Bool → PyScalar
deriving DecidableEq, Repr

/-- The device array object.  `id` identifies the backing allocation so
that aliasing (returning the identical array) is expressible.  The
contiguity flags are carried as fields, exactly as the source reads them
from `a.flags`. -/
structure Ndarray where
  id : Nat
  shape : List Nat
  strides : List Int
  dtype : Dtype
  data : List Int
  c_contiguous : Bool
  f_contiguous : Bool
deriving DecidableEq, Repr

/-- `a.ndim` -/
def Ndarray.ndim (a : Ndarray) : Nat := a.shape.length

/-- `a.size` -/
def Ndarray.size (a : Ndarray) : Nat := a.shape.prod

/-- The `shape` argument of the `*_like` functions: `None`, a Python int
(`numpy.isscalar` is true for it), or a tuple/list of ints. -/
inductive ShapeArg where
  | none : ShapeArg
  | scalar : Nat → ShapeArg
  | tuple : List Nat → ShapeArg
deriving DecidableEq, Repr

/-- `if numpy.isscalar(shape): shape = (shape,)` -/
def wrapScalar : ShapeArg → ShapeArg
  | .scalar n => .tuple [n]
  | s => s

/-- The underlying optional tuple of a (wrapped) shape argument. -/
def shapeList : ShapeArg → Option (List Nat)
  | .none => Option.none
  | .scalar n => some [n]
  | .tuple l => some l

/-- Python truthiness of the shape argument (`shape if shape else a.shape`):
`None`, `0`, and the empty tuple are falsy. -/
def shapeTruthy : ShapeArg → Bool
  | .none => false
  | .scalar n => decide (n ≠ 0)
  | .tuple l => decide (l ≠ [])

/-- The tuple a truthy shape argument denotes (an int n means shape `(n,)`). -/
def shapeTuple : ShapeArg → List Nat
  | .none => []
  | .scalar n => [n]
  | .tuple l => l

/-- Errors raised by this layer. -/
inductive PyErr where
  | valueError : String → PyErr
  | typeError : String → PyErr
deriving DecidableEq, Repr

/-- Modelled from the spec: `_update_order_char` (from
`cupy._core.internal`, not part of the excerpt) resolves an order
character against the source's contiguity flags: 'A' becomes 'F' only if
the source is column-major contiguous and not row-major contiguous, else
'C'; 'K' mirrors whichever of row-major / column-major the source
actually is ('C' when row-major contiguous, 'F' when column-major
contiguous), and stays 'K' when the source is neither (the
explicit-stride case of the resolver).  'C' and 'F' pass through. -/
def update_order_char (c_contiguous f_contiguous : Bool) (order : Char) : Char :=
  if order = 'A' then
    if f_contiguous && !c_contiguous then 'F' else 'C'
  else if order = 'K' then
    if c_contiguous then 'C'
    else if f_contiguous then 'F'
    else 'K'
  else order

/-- Insert into a sorted list, keeping earlier elements first on ties
(the stability of Python's sort). -/
def insertBy {α : Type} (le : α → α → Bool) (x : α) : List α → List α
  | [] => [x]
  | y :: ys => if le y x then y :: insertBy le x ys else x :: y :: ys

/-- Stable ascending sort by a boolean comparison. -/
def sortBy {α : Type} (le : α → α → Bool) : List α → List α
  | [] => []
  | x :: xs => insertBy le x (sortBy le xs)

/-- Modelled from the spec: `_get_strides_for_order_K` (from
`cupy._core.internal`, not part of the excerpt) computes explicit
per-dimension byte strides that reproduce the source's per-dimension
memory order for the target shape: axes are ranked from innermost to
outermost by the absolute value of the source's byte strides, and the new
strides accumulate the target extents in that order starting from the
item size. -/
def get_strides_for_order_K (a : Ndarray) (itemsize : Nat)
    (shape : Option (List Nat)) : List Nat :=
  let shp := shape.getD a.shape
  let axes := sortBy
    (fun i j => decide ((a.strides.getD i 0).natAbs ≤ (a.strides.getD j 0).natAbs))
    (List.range a.ndim)
  let assign := axes.foldl
    (fun (st : List (Nat × Nat) × Nat) i =>
      ((i, st.2) :: st.1, st.2 * shp.getD i 1))
    ([], itemsize)
  (List.range a.ndim).map (fun i => ((assign.1.lookup i).getD 0))

/-- Result of `_new_like_order_and_strides`: the resolved order character,
the optional explicit strides, and the optional fresh backing buffer
(modelled by the element count it was allocated for,
`cupy.empty(size, dtype).data`). -/
structure LikeLayout where
  order : Char
  strides : Option (List Nat)
  memptr : Option Nat
deriving DecidableEq, Repr

/-- Python `str.upper` on the order token (ASCII, as all order tokens are). -/
def pyUpper (s : String) : String := ⟨s.data.map Char.toUpper⟩

/-- `ord(order)` for a one-character order token. -/
def tokenChar (s : String) : Char := s.data.headD ' '

/-- `shape is not None and len(shape) != n`, for a wrapped shape argument. -/
def lenMismatch (shape : ShapeArg) (n : Nat) : Bool :=
  match shapeList shape with
  | some l => decide (l.length ≠ n)
  | Option.none => false

/-- `_new_like_order_and_strides(a, dtype, order, shape, get_memptr)`:
determine order and strides as in NumPy's `PyArray_NewLikeArray`. -/
def new_like_order_and_strides (a : Ndarray) (dtype : Dtype) (order : String)
    (shape : ShapeArg) (get_memptr : Bool) : Except PyErr LikeLayout :=
  let order := pyUpper order
  if order ∉ (["C", "F", "K", "A"] : List String) then
    .error (.valueError ("order not understood: " ++ order))
  else
    let shape := wrapScalar shape
    if order = "K" ∧ lenMismatch shape a.ndim then
      .ok ⟨'C', Option.none, Option.none⟩
    else
      let orderChar :=
        update_order_char a.c_contiguous a.f_contiguous (tokenChar order)
      if orderChar = 'K' then
        let strides := get_strides_for_order_K a dtype.itemsize (shapeList shape)
        let size := match shapeList shape with
          | some l => l.prod
          | Option.none => a.size
        let memptr := if get_memptr then some size else Option.none
        .ok ⟨'C', some strides, memptr⟩
      else
        .ok ⟨orderChar, Option.none, Option.none⟩

/-- The fill value of `full`/`full_like`: a device array or a host scalar. -/
inductive FillValue where
  | array : Ndarray → FillValue
  | scalar : PyScalar → FillValue
deriving DecidableEq, Repr

/-- The fill operation issued after allocation. -/
inductive FillKind where
  | noFill : FillKind
  | zeroFill : FillKind
  | oneFill : FillKind
  | fillVal : FillValue → FillKind
deriving DecidableEq, Repr

/-- The request a factory passes to the `cupy.ndarray` constructor
(shape, dtype, memptr, strides, order) together with the fill operation
then issued on the new array. -/
structure NewArraySpec where
  shape : List Nat
  dtype : Dtype
  memptr : Option Nat
  strides : Option (List Nat)
  order : Char
  fill : FillKind
deriving DecidableEq, Repr

/-- Modelled from the spec: the host-side scalar-to-dtype inference rule
(`numpy.array(fill_value).dtype`, external to the excerpt): an integer
literal yields the default integer dtype, a float literal the default
floating dtype, a bool the boolean dtype. -/
def infer_scalar_dtype : PyScalar → Dtype
  | .int _ => .int64
  | .float _ => .float64
  | .bool _ => .bool_

/-- `empty_like(prototype, dtype, order, subok, shape)` -/
def empty_like (prototype : Ndarray) (dtype : Option Dtype) (order : String)
    (subok : Option Unit) (shape : ShapeArg) : Except PyErr NewArraySpec :=
  if subok.isSome then
    .error (.typeError "subok is not supported yet")
  else
    let dtype := dtype.getD prototype.dtype
    match new_like_order_and_strides prototype dtype order shape true with
    | .error e => .error e
    | .ok lay =>
      let shp := if shapeTruthy shape then shapeTuple shape else prototype.shape
      .ok ⟨shp, dtype, lay.memptr, lay.strides, lay.order, .noFill⟩

/-- `ones_like(a, dtype, order, subok, shape)` -/
def ones_like (a : Ndarray) (dtype : Option Dtype) (order : String)
    (subok : Option Unit) (shape : ShapeArg) : Except PyErr NewArraySpec :=
  if subok.isSome then
    .error (.typeError "subok is not supported yet")
  else
    let dtype := dtype.getD a.dtype
    match new_like_order_and_strides a dtype order shape true with
    | .error e => .error e
    | .ok lay =>
      let shp := if shapeTruthy shape then shapeTuple shape else a.shape
      .ok ⟨shp, dtype, lay.memptr, lay.strides, lay.order, .oneFill⟩

/-- `zeros_like(a, dtype, order, subok, shape)` -/
def zeros_like (a : Ndarray) (dtype : Option Dtype) (order : String)
    (subok : Option Unit) (shape : ShapeArg) : Except PyErr NewArraySpec :=
  if subok.isSome then
    .error (.typeError "subok is not supported yet")
  else
    let dtype := dtype.getD a.dtype
    match new_like_order_and_strides a dtype order shape true with
    | .error e => .error e
    | .ok lay =>
      let shp := if shapeTruthy shape then shapeTuple shape else a.shape
      .ok ⟨shp, dtype, lay.memptr, lay.strides, lay.order, .zeroFill⟩

/-- `full(shape, fill_value, dtype, order)` -/
def full (shape : List Nat) (fill_value : FillValue) (dtype : Option Dtype)
    (order : Char) : NewArraySpec :=
  let dtype := match dtype with
    | some d => d
    | Option.none =>
      match fill_value with
      | .array arr => arr.dtype
      | .scalar s => infer_scalar_dtype s
  ⟨shape, dtype, Option.none, Option.none, order, .fillVal fill_value⟩

/-- `full_like(a, fill_value, dtype, order, subok, shape)` -/
def full_like (a : Ndarray) (fill_value : FillValue) (dtype : Option Dtype)
    (order : String) (subok : Option Unit) (shape : ShapeArg) :
    Except PyErr NewArraySpec :=
  if subok.isSome then
    .error (.typeError "subok is not supported yet")
  else
    let dtype := dtype.getD a.dtype
    match new_like_order_and_strides a dtype order shape true with
    | .error e => .error e
    | .ok lay =>
      let shp := if shapeTruthy shape then shapeTuple shape else a.shape
      .ok ⟨shp, dtype, lay.memptr, lay.strides, lay.order, .fillVal fill_value⟩

/-- Normalisation an element value undergoes when stored under a dtype:
bools collapse to 0/1, fixed-width integers wrap to their range, floats
(modelled by exact integers) are kept. -/
def castElem : Dtype → Int → Int
  | .bool_, v => if v = 0 then 0 else 1
  | .int32, v => (v + 2 ^ 31) % 2 ^ 32 - 2 ^ 31
  | .int64, v => (v + 2 ^ 63) % 2 ^ 64 - 2 ^ 63
  | .float32, v => v
  | .float64, v => v

/-- The array's stored elements are values of its own dtype. -/
def wfData (x : Ndarray) : Prop := ∀ v ∈ x.data, castElem x.dtype v = v

/-- Modelled from the spec: `ndarray.astype` (the array object's own cast
primitive, not part of the excerpt).  If `copy` is false and the dtype
already matches, the very same array is returned with no allocation;
otherwise a newly allocated array (`fresh` is its allocation identity)
with the requested dtype is returned, every element cast. -/
def ndarray_astype (x : Ndarray) (dtype : Dtype) (copy : Bool) (fresh : Nat) :
    Ndarray :=
  if copy = false ∧ dtype = x.dtype then x
  else { x with id := fresh, dtype := dtype, data := x.data.map (castElem dtype) }

/-- An argument that may or may not be a cupy array, for the `astype`
wrapper's type check; `descr` stands for `type(x)` of a non-array. -/
inductive PyObj where
  | arr : Ndarray → PyObj
  | nonArray : String → PyObj
deriving DecidableEq, Repr

/-- `astype(x, dtype, copy)`: the Array API compatible wrapper. -/
def astype (x : PyObj) (dtype : Dtype) (copy : Bool) (fresh : Nat) :
    Except PyErr Ndarray :=
  match x with
  | .nonArray descr =>
    .error (.typeError
      ("Input should be a CuPy array. It is a " ++ descr ++ " instead."))
  | .arr a => .ok (ndarray_astype a dtype copy fresh)

/-- `zeros((N, M), dtype, order)` as a matrix of element values: all
entries are the zero of the dtype. -/
def zerosMat (N M : Nat) : List (List Int) :=
  (List.range N).map (fun _ => (List.range M).map (fun _ => 0))

/-- Modelled from the spec: `ret.diagonal(k).fill(1)` (array-object
primitives, not part of the excerpt).  Per the docstring, `k` indexes the
diagonal (0 the main diagonal, positive upper, negative lower), and the
fill sets every entry `(i, j)` with `j - i = k` to one. -/
def fillDiagonal (mat : List (List Int)) (k : Int) : List (List Int) :=
  mat.mapIdx (fun i row =>
    row.mapIdx (fun j v => if (j : Int) - (i : Int) = k then 1 else v))

/-- `eye(N, M, k)` as a matrix of element values. -/
def eye (N : Nat) (M : Option Nat) (k : Int) : List (List Int) :=
  let m := M.getD N
  let ret := zerosMat N m
  if k ≤ -(N : Int) ∨ k ≥ (m : Int) then ret
  else fillDiagonal ret k

/-- Entry `(i, j)` of a matrix of element values. -/
def entry (mat : List (List Int)) (i j : Nat) : Int :=
  (mat.getD i []).getD j 0

/-! ### Sample arrays used by witnesses and counterexamples -/

/-- A 2×3 row-major contiguous int64 array. -/
def sampleC : Ndarray := ⟨0, [2, 3], [24, 8], .int64, [1, 2, 3, 4, 5, 6], true, false⟩

/-- A 3×2 int64 array that is neither row- nor column-major contiguous
(a transposed view of `sampleC`). -/
def sampleK : Ndarray := ⟨1, [3, 2], [8, 24], .int64, [1, 4, 2, 5, 3, 6], false, false⟩

/-! ### Helper lemmas -/

/-- An order token whose upper-cased form is not one of C/F/K/A makes the
resolver raise `ValueError`. -/
theorem resolver_invalid_order (a : Ndarray) (dt : Dtype) (order : String)
    (s : ShapeArg) (g : Bool)
    (h : pyUpper order ∉ (["C", "F", "K", "A"] : List String)) :
    new_like_order_and_strides a dt order s g =
      .error (.valueError ("order not understood: " ++ pyUpper order)) := by
  unfold new_like_order_and_strides
  simp only [if_pos h]

/-- With order 'K' and a target shape of mismatched dimensionality the
resolver falls back to ('C', no strides, no buffer). -/
theorem resolver_K_dim_mismatch (a : Ndarray) (dt : Dtype) (s : ShapeArg)
    (g : Bool) (l : List Nat)
    (hs : shapeList (wrapScalar s) = some l) (hlen : l.length ≠ a.ndim) :
    new_like_order_and_strides a dt "K" s g =
      .ok ⟨'C', Option.none, Option.none⟩ := by
  have hlm : lenMismatch (wrapScalar s) a.ndim = true := by
    unfold lenMismatch
    rw [hs]
    simpa using hlen
  unfold new_like_order_and_strides
  rw [if_neg (by decide)]
  rw [if_pos ⟨rfl, hlm⟩]

/-- With order 'K', a source that is neither row- nor column-major
contiguous, and no dimensionality mismatch, the resolver takes the
explicit-stride branch. -/
theorem resolver_K_strides (a : Ndarray) (dt : Dtype) (s : ShapeArg) (g : Bool)
    (hc : a.c_contiguous = false) (hf : a.f_contiguous = false)
    (hlen : ∀ l, shapeList (wrapScalar s) = some l → l.length = a.ndim) :
    new_like_order_and_strides a dt "K" s g =
      .ok ⟨'C',
        some (get_strides_for_order_K a dt.itemsize (shapeList (wrapScalar s))),
        if g then
          some (match shapeList (wrapScalar s) with
            | some l => l.prod
            | Option.none => a.size)
        else Option.none⟩ := by
  have hlm : lenMismatch (wrapScalar s) a.ndim = false := by
    unfold lenMismatch
    cases h : shapeList (wrapScalar s) with
    | none => rfl
    | some l => simp [hlen l h]
  unfold new_like_order_and_strides
  rw [if_neg (by decide)]
  rw [if_neg (by simp [hlm])]
  rw [hc, hf]
  rfl

/-- With order 'K' the resolver never raises. -/
theorem resolver_K_isOk (a : Ndarray) (dt : Dtype) (s : ShapeArg) (g : Bool) :
    ∃ lay, new_like_order_and_strides a dt "K" s g = .ok lay := by
  unfold new_like_order_and_strides
  rw [if_neg (by decide)]
  by_cases h1 : lenMismatch (wrapScalar s) a.ndim = true
  · rw [if_pos ⟨rfl, h1⟩]
    exact ⟨_, rfl⟩
  · rw [if_neg (by simp [h1])]
    by_cases h2 :
        update_order_char a.c_contiguous a.f_contiguous (tokenChar (pyUpper "K")) = 'K'
    · rw [if_pos h2]
      exact ⟨_, rfl⟩
    · rw [if_neg h2]
      exact ⟨_, rfl⟩

/-- The shape of a factory result, when it produced one. -/
def resShape : Except PyErr NewArraySpec → Option (List Nat)
  | .ok r => some r.shape
  | .error _ => Option.none

/-- The dtype of a factory result, when it produced one. -/
def resDtype : Except PyErr NewArraySpec → Option Dtype
  | .ok r => some r.dtype
  | .error _ => Option.none

/-- `getElem?` on `mapIdx` applies the indexed function. -/
theorem aux_getElem?_mapIdx {α β : Type} (l : List α) (f : Nat → α → β) (i : Nat) :
    (l.mapIdx f)[i]? = Option.map (f i) l[i]? := by
  rcases Nat.lt_or_ge i l.length with h | h
  · have h' : i < (l.mapIdx f).length := by
      simpa [List.length_mapIdx] using h
    rw [List.getElem?_eq_getElem h, List.getElem?_eq_getElem h']
    have hg := List.get_mapIdx l f i h h'
    simp only [List.get_eq_getElem] at hg
    rw [hg]
    rfl
  · rw [List.getElem?_eq_none (by simpa [List.length_mapIdx] using h),
      List.getElem?_eq_none h]
    rfl

/-- Row `i` of the diagonal-filled zero matrix. -/
theorem row_fillDiagonal_zeros (N M : Nat) (k : Int) (i : Nat) (hi : i < N) :
    (fillDiagonal (zerosMat N M) k).getD i [] =
      List.mapIdx (fun j v => if (j : Int) - (i : Int) = k then 1 else v)
        ((List.range M).map (fun _ => (0 : Int))) := by
  unfold fillDiagonal zerosMat
  rw [List.getD_eq_getElem?_getD, aux_getElem?_mapIdx, List.getElem?_map,
    List.getElem?_range hi, Option.map_some', Option.map_some', Option.getD_some]

/-- Entry `(i, j)` of the diagonal-filled zero matrix. -/
theorem entry_fillDiagonal_zeros (N M : Nat) (k : Int) (i j : Nat)
    (hi : i < N) (hj : j < M) :
    entry (fillDiagonal (zerosMat N M) k) i j =
      (if (j : Int) - (i : Int) = k then 1 else 0) := by
  unfold entry
  rw [row_fillDiagonal_zeros N M k i hi]
  rw [List.getD_eq_getElem?_getD, aux_getElem?_mapIdx, List.getElem?_map,
    List.getElem?_range hj, Option.map_some', Option.map_some', Option.getD_some]

/-- Row `i` of the zero matrix. -/
theorem row_zerosMat (N M i : Nat) :
    (zerosMat N M).getD i [] =
      (if i < N then (List.range M).map (fun _ => (0 : Int)) else []) := by
  unfold zerosMat
  rcases Nat.lt_or_ge i N with h | h
  · rw [List.getD_eq_getElem?_getD, List.getElem?_map, List.getElem?_range h,
      Option.map_some', Option.getD_some, if_pos h]
  · rw [List.getD_eq_getElem?_getD, List.getElem?_eq_none (by simpa using h),
      if_neg (by omega)]
    rfl

/-- Every entry of the zero matrix is zero. -/
theorem entry_zerosMat (N M i j : Nat) : entry (zerosMat N M) i j = 0 := by
  unfold entry
  rw [row_zerosMat]
  split
  · rw [List.getD_eq_getElem?_getD]
    rcases Nat.lt_or_ge j M with h2 | h2
    · rw [List.getElem?_map, List.getElem?_range h2, Option.map_some',
        Option.getD_some]
    · rw [List.getElem?_eq_none (by simpa using h2)]
      rfl
  · rfl

/-! ### Claim theorems -/

/-- C7: without the dimensionality-mismatch fallback, order 'A' resolves
to 'F' exactly when the source is column-major contiguous and not
row-major contiguous and to 'C' otherwise; order 'K' resolves to 'C' when
the source is row-major contiguous, to 'F' when column-major contiguous
but not row-major contiguous, and stays 'K' (the explicit-stride case)
only when the source is neither contiguous. -/
theorem claim_C7_order_resolution (c f : Bool) :
    update_order_char c f 'A' = (if f && !c then 'F' else 'C') ∧
    update_order_char c f 'K' = (if c then 'C' else if f then 'F' else 'K') := by
  cases c <;> cases f <;> exact ⟨rfl, rfl⟩

/-- C6: every `*_like` factory rejects a non-default (non-None) `subok`
argument with a `TypeError`, before any allocation or fill, whatever the
other arguments are. -/
theorem claim_C6_subok_rejected (a : Ndarray) (d : Option Dtype) (fv : FillValue)
    (order : String) (s : ShapeArg) (u : Unit) :
    empty_like a d order (some u) s =
      .error (.typeError "subok is not supported yet") ∧
    ones_like a d order (some u) s =
      .error (.typeError "subok is not supported yet") ∧
    zeros_like a d order (some u) s =
      .error (.typeError "subok is not supported yet") ∧
    full_like a fv d order (some u) s =
      .error (.typeError "subok is not supported yet") :=
  ⟨rfl, rfl, rfl, rfl⟩

/-- C8: `astype` on an input that is not a cupy array raises a
`TypeError` and returns no array. -/
theorem claim_C8_astype_non_array (descr : String) (dt : Dtype) (copy : Bool)
    (fresh : Nat) :
    astype (.nonArray descr) dt copy fresh =
      .error (.typeError
        ("Input should be a CuPy array. It is a " ++ descr ++ " instead.")) :=
  rfl

/-- C5 counterexample: the lowercase token "c" is outside {C, F, A, K},
yet the resolver accepts it (the token is upper-cased first) and returns
a result instead of raising. -/
theorem claim_C5_counterexample :
    ("c" ∉ (["C", "F", "A", "K"] : List String)) ∧
    new_like_order_and_strides sampleC .int64 "c" .none true =
      .ok ⟨'C', Option.none, Option.none⟩ :=
  ⟨by decide, rfl⟩

/-- C5 (amended): for every requested order token whose upper-cased form
is outside {C, F, K, A}, the order resolver raises an invalid-argument
`ValueError` and produces no array; lowercase variants of C/F/A/K are
accepted because the token is upper-cased first. -/
theorem claim_C5_invalid_order (a : Ndarray) (dt : Dtype) (order : String)
    (s : ShapeArg) (g : Bool)
    (h : pyUpper order ∉ (["C", "F", "K", "A"] : List String)) :
    new_like_order_and_strides a dt order s g =
      .error (.valueError ("order not understood: " ++ pyUpper order)) ∧
    empty_like a (some dt) order Option.none s =
      .error (.valueError ("order not understood: " ++ pyUpper order)) := by
  refine ⟨resolver_invalid_order a dt order s g h, ?_⟩
  unfold empty_like
  simp only [Option.isSome_none, Bool.false_eq_true, if_false, Option.getD_some,
    resolver_invalid_order a dt order s true h]

/-- C5 witness: the invalid token "X" is rejected. -/
theorem claim_C5_invalid_order_witness :
    (pyUpper "X" ∉ (["C", "F", "K", "A"] : List String)) ∧
    new_like_order_and_strides sampleC .int64 "X" .none true =
      .error (.valueError ("order not understood: " ++ pyUpper "X")) :=
  ⟨by decide, (claim_C5_invalid_order sampleC .int64 "X" .none true (by decide)).1⟩

/-- C1: with order 'K' and an explicitly given target shape whose
dimensionality differs from the source's, the resolver immediately
returns order 'C' with no explicit strides and no explicit buffer, and
`empty_like` then requests a plain row-major array. -/
theorem claim_C1_dim_mismatch_fallback (a : Ndarray) (d : Option Dtype)
    (dt : Dtype) (s : ShapeArg) (l : List Nat)
    (hs : shapeList (wrapScalar s) = some l) (hlen : l.length ≠ a.ndim) :
    new_like_order_and_strides a dt "K" s true =
      .ok ⟨'C', Option.none, Option.none⟩ ∧
    empty_like a d "K" Option.none s =
      .ok ⟨if shapeTruthy s then shapeTuple s else a.shape, d.getD a.dtype,
           Option.none, Option.none, 'C', .noFill⟩ := by
  refine ⟨resolver_K_dim_mismatch a dt s true l hs hlen, ?_⟩
  unfold empty_like
  simp only [Option.isSome_none, Bool.false_eq_true, if_false,
    resolver_K_dim_mismatch a (d.getD a.dtype) s true l hs hlen]

/-- C1 witness: a length-1 target shape on a 2-dimensional source. -/
theorem claim_C1_dim_mismatch_fallback_witness :
    shapeList (wrapScalar (.tuple [6])) = some [6] ∧
    ([6] : List Nat).length ≠ sampleC.ndim ∧
    new_like_order_and_strides sampleC .int64 "K" (.tuple [6]) true =
      .ok ⟨'C', Option.none, Option.none⟩ ∧
    empty_like sampleC Option.none "K" Option.none (.tuple [6]) =
      .ok ⟨[6], .int64, Option.none, Option.none, 'C', .noFill⟩ := by
  have h := claim_C1_dim_mismatch_fallback sampleC Option.none .int64
    (.tuple [6]) [6] rfl (by decide)
  exact ⟨rfl, by decide, h.1, h.2.trans rfl⟩

/-- C2: when the source is neither row- nor column-major contiguous (and
no dimensionality mismatch forces the fallback), the resolver computes
explicit strides reproducing the source's memory order for the target
shape, allocates a fresh buffer sized to the target element count
(product of the target shape, or `a.size` with no shape override), and
returns order 'C' with those strides and that buffer. -/
theorem claim_C2_K_explicit_strides (a : Ndarray) (dt : Dtype) (s : ShapeArg)
    (hc : a.c_contiguous = false) (hf : a.f_contiguous = false)
    (hlen : ∀ l, shapeList (wrapScalar s) = some l → l.length = a.ndim) :
    new_like_order_and_strides a dt "K" s true =
      .ok ⟨'C',
        some (get_strides_for_order_K a dt.itemsize (shapeList (wrapScalar s))),
        some (match shapeList (wrapScalar s) with
          | some l => l.prod
          | Option.none => a.size)⟩ := by
  simpa using resolver_K_strides a dt s true hc hf hlen

/-- C2 witness: the transposed view `sampleK` (strides [8, 24]) with no
shape override gets F-like strides [8, 24] and a buffer for 6 elements. -/
theorem claim_C2_K_explicit_strides_witness :
    sampleK.c_contiguous = false ∧ sampleK.f_contiguous = false ∧
    new_like_order_and_strides sampleK .int64 "K" .none true =
      .ok ⟨'C', some [8, 24], some 6⟩ := by
  have h := claim_C2_K_explicit_strides sampleK .int64 .none rfl rfl
    (fun l hl => by cases hl)
  exact ⟨rfl, rfl, h.trans rfl⟩

/-- C3 counterexample: with no dtype given, `full_like` takes the
prototype array's dtype, not a dtype inferred from the fill value:
filling the int64 prototype `sampleC` with a float scalar yields an
int64 result, where the claim requires the floating dtype. -/
theorem claim_C3_counterexample :
    full_like sampleC (.scalar (.float 2)) Option.none "K" Option.none .none =
      .ok ⟨[2, 3], .int64, Option.none, Option.none, 'C',
           .fillVal (.scalar (.float 2))⟩ ∧
    infer_scalar_dtype (.float 2) = .float64 ∧
    Dtype.int64 ≠ Dtype.float64 :=
  ⟨rfl, rfl, by decide⟩

/-- C3 (amended): when dtype is unspecified, `full` infers the result
dtype from the fill value (an array's own dtype, otherwise the host-side
scalar-to-dtype inference rule), while `full_like` instead defaults to
the source array's dtype, ignoring the fill value. -/
theorem claim_C3_dtype_inference (shape : List Nat) (fv : FillValue)
    (order : Char) (a : Ndarray) (s : ShapeArg) :
    (full shape fv Option.none order).dtype =
      (match fv with
       | .array arr => arr.dtype
       | .scalar sc => infer_scalar_dtype sc) ∧
    resDtype (full_like a fv Option.none "K" Option.none s) = some a.dtype := by
  constructor
  · cases fv <;> rfl
  · obtain ⟨lay, hlay⟩ := resolver_K_isOk a a.dtype s true
    unfold full_like
    simp only [Option.isSome_none, Bool.false_eq_true, if_false, hlay, resDtype,
      Option.getD_none]

/-- C4: `astype` on an array with `copy=False` and the array's own dtype
returns the identical array with no allocation; with `copy=True` or a
different dtype it returns a distinct, newly allocated array with the
requested dtype whose elements are the cast copies of the input's; in
particular `astype(a, a.dtype, copy=True)` is a distinct array with
equal contents. -/
theorem claim_C4_astype_copy (x : Ndarray) (dt : Dtype) (fresh : Nat)
    (hfresh : fresh ≠ x.id) (hwf : wfData x) :
    (dt = x.dtype → astype (.arr x) dt false fresh = .ok x) ∧
    (∀ copy : Bool, copy = true ∨ dt ≠ x.dtype →
      astype (.arr x) dt copy fresh =
        .ok { x with id := fresh, dtype := dt,
                     data := x.data.map (castElem dt) } ∧
      fresh ≠ x.id) ∧
    astype (.arr x) x.dtype true fresh = .ok { x with id := fresh } := by
  refine ⟨?_, ?_, ?_⟩
  · intro h
    show Except.ok (ndarray_astype x dt false fresh) = .ok x
    unfold ndarray_astype
    rw [if_pos ⟨rfl, h⟩]
  · intro copy h
    refine ⟨?_, hfresh⟩
    show Except.ok (ndarray_astype x dt copy fresh) = _
    unfold ndarray_astype
    rw [if_neg ?_]
    rcases h with h | h
    · subst h
      rintro ⟨h1, -⟩
      cases h1
    · rintro ⟨-, h2⟩
      exact h h2
  · show Except.ok (ndarray_astype x x.dtype true fresh) = _
    unfold ndarray_astype
    rw [if_neg (by rintro ⟨h1, -⟩; cases h1)]
    have hdata : x.data.map (castElem x.dtype) = x.data := by
      rw [List.map_congr_left hwf]
      simp
    rw [hdata]

/-- C4 witness: `sampleC` (int64) under `astype` with its own dtype. -/
theorem claim_C4_astype_copy_witness :
    (99 ≠ sampleC.id) ∧ wfData sampleC ∧
    astype (.arr sampleC) .int64 false 99 = .ok sampleC ∧
    astype (.arr sampleC) .int64 true 99 = .ok { sampleC with id := 99 } := by
  have hwf : wfData sampleC := by
    unfold wfData
    decide
  have h := claim_C4_astype_copy sampleC .int64 99 (by decide) hwf
  exact ⟨by decide, hwf, h.1 rfl, h.2.2⟩

/-- C10: in every `*_like` factory the shape override is selected by
Python truthiness, so an explicitly passed falsy shape (empty tuple,
0, empty list) is treated as unspecified and the result takes the
source array's shape. -/
theorem claim_C10_falsy_shape_override (a : Ndarray) (d : Option Dtype)
    (fv : FillValue) (s : ShapeArg) (hs : shapeTruthy s = false) :
    resShape (empty_like a d "K" Option.none s) = some a.shape ∧
    resShape (ones_like a d "K" Option.none s) = some a.shape ∧
    resShape (zeros_like a d "K" Option.none s) = some a.shape ∧
    resShape (full_like a fv d "K" Option.none s) = some a.shape := by
  obtain ⟨lay, hlay⟩ := resolver_K_isOk a (d.getD a.dtype) s true
  refine ⟨?_, ?_, ?_, ?_⟩ <;>
    first
    | (unfold empty_like
       simp only [Option.isSome_none, Bool.false_eq_true, if_false, hlay, hs, resShape])
    | (unfold ones_like
       simp only [Option.isSome_none, Bool.false_eq_true, if_false, hlay, hs, resShape])
    | (unfold zeros_like
       simp only [Option.isSome_none, Bool.false_eq_true, if_false, hlay, hs, resShape])
    | (unfold full_like
       simp only [Option.isSome_none, Bool.false_eq_true, if_false, hlay, hs, resShape])

/-- C10 witness: the empty tuple as explicit shape override on the 2×3
source `sampleC` leaves the result with shape [2, 3]. -/
theorem claim_C10_falsy_shape_override_witness :
    shapeTruthy (.tuple []) = false ∧
    resShape (empty_like sampleC Option.none "K" Option.none (.tuple [])) =
      some [2, 3] ∧
    resShape (full_like sampleC (.scalar (.int 7)) Option.none "K" Option.none
      (.tuple [])) = some [2, 3] := by
  have h := claim_C10_falsy_shape_override sampleC Option.none
    (.scalar (.int 7)) (.tuple []) rfl
  exact ⟨rfl, h.1.trans rfl, h.2.2.2.trans rfl⟩

/-- C9: `eye(N, M, k)` is an N-by-M matrix with ones exactly on diagonal
k and zeros elsewhere; `eye(3)` with default k=0 is the 3×3 identity,
`eye(3, k=1)` has ones only on the superdiagonal, and for k ≤ -N or
k ≥ M the result is entirely zero. -/
theorem claim_C9_eye_diagonal (N M : Nat) (k : Int) (i j : Nat)
    (hN : 1 ≤ N) (hi : i < N) (hj : j < M) :
    entry (eye N (some M) k) i j =
      (if (j : Int) - (i : Int) = k then 1 else 0) ∧
    (eye N (some M) k).length = N ∧
    (∀ r < N, ((eye N (some M) k).getD r []).length = M) ∧
    eye 3 Option.none 0 = [[1, 0, 0], [0, 1, 0], [0, 0, 1]] ∧
    eye 3 Option.none 1 = [[0, 1, 0], [0, 0, 1], [0, 0, 0]] ∧
    ((k ≤ -(N : Int) ∨ k ≥ (M : Int)) → eye N (some M) k = zerosMat N M) := by
  refine ⟨?_, ?_, ?_, rfl, rfl, ?_⟩
  · unfold eye
    simp only [Option.getD_some]
    split
    · rename_i hk
      rw [entry_zerosMat]
      have hne : ¬((j : Int) - (i : Int) = k) := by omega
      rw [if_neg hne]
    · exact entry_fillDiagonal_zeros N M k i j hi hj
  · unfold eye
    simp only [Option.getD_some]
    split
    · simp [zerosMat]
    · simp [fillDiagonal, zerosMat, List.length_mapIdx]
  · intro r hr
    unfold eye
    simp only [Option.getD_some]
    split
    · rw [row_zerosMat, if_pos hr]
      simp
    · rw [row_fillDiagonal_zeros N M k r hr]
      simp [List.length_mapIdx]
  · intro hk
    unfold eye
    simp only [Option.getD_some]
    rw [if_pos hk]

/-- C9 witness: `eye 3 4 1` at entry (0, 1). -/
theorem claim_C9_eye_diagonal_witness :
    entry (eye 3 (some 4) 1) 0 1 = 1 ∧
    eye 3 Option.none 0 = [[1, 0, 0], [0, 1, 0], [0, 0, 1]] := by
  have h := claim_C9_eye_diagonal 3 4 1 0 1 (by decide) (by decide) (by decide)
  exact ⟨h.1.trans rfl, h.2.2.2.1⟩

end CupyBasic
